import Mathlib

/-!
# cpp-simple-game: the SDL sample loop of `main.cpp`

A shallow embedding of
`src/AzureExtension/Assets/QuickStartPlayground/Samples/cpp-simple-game/main.cpp`.

* The calls into SDL and the writes to `std::cout` are the observable effects of the
  program; a run records them, in program order, in a trace (`Effect`).
* Everything the environment decides is an input (`Env`): the return value of `SDL_Init`,
  the pointers returned by `SDL_CreateWindow` and `SDL_GetWindowSurface`, the text of
  `SDL_GetError`, and the events delivered by `SDL_PollEvent`, grouped into poll batches
  (the events handed out by successive calls until one call returns 0).
* Pointers are `Option`s, `none` being `NULL`.  The expression `screenSurface->format`
  reads through the pointer; with `screenSurface == NULL` the run stops there with
  `Outcome.nullDeref`, and the trace holds the effects that came before.
* The fields of `SDL_Rect` are C `int`s, embedded as `Int`.  The program only adds or
  subtracts 1, so along a run from the start rectangle the values stay within the `int`
  range for any batch sequence of fewer than `2^31 - 481` key presses
  (`drain_x_near`, `drain_y_near`).
-/

namespace SimpleGame

/-! ## Constants -/

/-- Line 4: `const int SCREEN_WIDTH = 800;`. -/
def SCREEN_WIDTH : Int := 800

/-- Line 5: `const int SCREEN_HEIGHT = 600;`. -/
def SCREEN_HEIGHT : Int := 600

/-- Event type `SDL_QUIT` of `SDL_events.h` (0x100). -/
def SDL_QUIT : Nat := 0x100

/-- Event type `SDL_KEYDOWN` of `SDL_events.h` (0x300). -/
def SDL_KEYDOWN : Nat := 0x300

/-- Key code `SDLK_RIGHT` of `SDL_keycode.h`: scancode 79 with bit 30 set. -/
def SDLK_RIGHT : Int := 1073741903

/-- Key code `SDLK_LEFT` of `SDL_keycode.h`: scancode 80 with bit 30 set. -/
def SDLK_LEFT : Int := 1073741904

/-- Key code `SDLK_DOWN` of `SDL_keycode.h`: scancode 81 with bit 30 set. -/
def SDLK_DOWN : Int := 1073741905

/-- Key code `SDLK_UP` of `SDL_keycode.h`: scancode 82 with bit 30 set. -/
def SDLK_UP : Int := 1073741906

/-! ## Data model -/

/-- The four `int` fields of `SDL_Rect`. -/
structure SDL_Rect where
  x : Int
  y : Int
  w : Int
  h : Int
deriving DecidableEq

/-- The part of the `SDL_Event` union the program reads: `e.type` and, for a keyboard
event, `e.key.keysym.sym`. -/
structure SDL_Event where
  type : Nat
  sym : Int
deriving DecidableEq

/-- A non-null `SDL_Window*`, identified by its address. -/
abbrev Window := Nat

/-- The part of `SDL_Surface` the program reads: the pixel format `format` points to. -/
structure SDL_Surface where
  format : Nat
deriving DecidableEq

/-- The value of `SDL_MapRGB(format, r, g, b)`, kept symbolic. -/
structure Color where
  format : Nat
  r : Nat
  g : Nat
  b : Nat
deriving DecidableEq

/-- Library call `SDL_MapRGB`. -/
def SDL_MapRGB (format : Nat) (r g b : Nat) : Color := ⟨format, r, g, b⟩

/-- The observable effects of the program, one per library call or console write. -/
inductive Effect where
  | SDL_Init
  | cout (text : String)
  | SDL_CreateWindow (title : String) (w h : Int)
  | SDL_GetWindowSurface (window : Option Window)
  | SDL_FillRect (dst : Option SDL_Surface) (rect : Option SDL_Rect) (color : Color)
  | SDL_UpdateWindowSurface (window : Option Window)
  | SDL_Delay (ms : Nat)
  | SDL_PollEvent (result : Option SDL_Event)
  | SDL_DestroyWindow (window : Option Window)
  | SDL_Quit
deriving DecidableEq

/-- What the environment decides during one run. -/
structure Env where
  initResult : Int
  createResult : Option Window
  surfaceResult : Option SDL_Surface
  error : String
  events : List (List SDL_Event)

/-- The local variables of `main` that live across the event loop (lines 25-32). -/
structure LoopState where
  player : SDL_Rect
  quit : Bool
deriving DecidableEq

/-- How the `while (!quit)` loop stopped on the batches it was given: the condition became
false, the read through a null `screenSurface` was reached, or the given batches ran out
while the loop was still running. -/
inductive LoopOutcome where
  | exited
  | nullDeref
  | starved
deriving DecidableEq

/-- Result of running the event loop on a list of poll batches. -/
structure LoopResult where
  trace : List Effect
  state : LoopState
  iterations : Nat
  outcome : LoopOutcome
deriving DecidableEq

/-- How a run of `main` ended: `return code`, the null dereference, or still looping when
the given batches ran out. -/
inductive Outcome where
  | returned (code : Int)
  | nullDeref
  | starved
deriving DecidableEq

/-- The handles and the trace after lines 8-23; `fault` is set when line 19 read through a
null `screenSurface`. -/
structure Startup where
  trace : List Effect
  window : Option Window
  screenSurface : Option SDL_Surface
  fault : Bool
deriving DecidableEq

/-- A run of `main`: its trace, the rectangle once it exists, the number of loop
iterations started, and how the run ended. -/
structure Run where
  trace : List Effect
  player : Option SDL_Rect
  iterations : Nat
  outcome : Outcome
deriving DecidableEq

/-! ## The program -/

/-- Lines 35-52: the body of the inner loop for one event. -/
def handleEvent (e : SDL_Event) (st : LoopState) : LoopState :=
  if e.type = SDL_QUIT then
    { st with quit := true }
  else if e.type = SDL_KEYDOWN then
    if e.sym = SDLK_LEFT then
      { st with player := { st.player with x := st.player.x - 1 } }
    else if e.sym = SDLK_RIGHT then
      { st with player := { st.player with x := st.player.x + 1 } }
    else if e.sym = SDLK_UP then
      { st with player := { st.player with y := st.player.y - 1 } }
    else if e.sym = SDLK_DOWN then
      { st with player := { st.player with y := st.player.y + 1 } }
    else
      st
  else
    st

/-- Lines 34-53, state: `while (SDL_PollEvent(&e) != 0) { ... }` on a queue holding the
events of one batch. -/
def drain : List SDL_Event → LoopState → LoopState
  | [], st => st
  | e :: es, st => drain es (handleEvent e st)

/-- Lines 34-53, effects: one `SDL_PollEvent` call per event of the batch, then the call
that returns 0. -/
def pollTrace : List SDL_Event → List Effect
  | [] => [Effect.SDL_PollEvent none]
  | e :: es => Effect.SDL_PollEvent (some e) :: pollTrace es

/-- Lines 54-56 with a non-null `screenSurface`. -/
def renderTrace (window : Option Window) (s : SDL_Surface) (player : SDL_Rect) :
    List Effect :=
  [ Effect.SDL_FillRect (some s) none (SDL_MapRGB s.format 0xFF 0xFF 0xFF),
    Effect.SDL_FillRect (some s) (some player) (SDL_MapRGB s.format 0x00 0xFF 0x00),
    Effect.SDL_UpdateWindowSurface window ]

/-- Lines 33-57: `while (!quit) { drain; render }`, one iteration per given batch. -/
def eventLoop (window : Option Window) (screenSurface : Option SDL_Surface) :
    List (List SDL_Event) → LoopState → LoopResult
  | [], st =>
      if st.quit then ⟨[], st, 0, LoopOutcome.exited⟩
      else ⟨[], st, 0, LoopOutcome.starved⟩
  | b :: rest, st =>
      if st.quit then ⟨[], st, 0, LoopOutcome.exited⟩
      else
        match screenSurface with
        | none => ⟨pollTrace b, drain b st, 1, LoopOutcome.nullDeref⟩
        | some s =>
            let r := eventLoop window screenSurface rest (drain b st)
            ⟨pollTrace b ++ renderTrace window s (drain b st).player ++ r.trace,
              r.state, r.iterations + 1, r.outcome⟩

/-- Lines 8-23: initialization, window creation and the preview. -/
def startup (env : Env) : Startup :=
  if env.initResult < 0 then
    ⟨[Effect.SDL_Init,
      Effect.cout ("SDL could not initialize! SDL_Error: " ++ env.error ++ "\n")],
      none, none, false⟩
  else
    match env.createResult with
    | none =>
        ⟨[Effect.SDL_Init,
          Effect.SDL_CreateWindow "SDL Tutorial" SCREEN_WIDTH SCREEN_HEIGHT,
          Effect.cout ("Window could not be created! SDL_Error: " ++ env.error ++ "\n")],
          none, none, false⟩
    | some w =>
        match env.surfaceResult with
        | none =>
            ⟨[Effect.SDL_Init,
              Effect.SDL_CreateWindow "SDL Tutorial" SCREEN_WIDTH SCREEN_HEIGHT,
              Effect.SDL_GetWindowSurface (some w)],
              some w, none, true⟩
        | some s =>
            ⟨[Effect.SDL_Init,
              Effect.SDL_CreateWindow "SDL Tutorial" SCREEN_WIDTH SCREEN_HEIGHT,
              Effect.SDL_GetWindowSurface (some w),
              Effect.SDL_FillRect (some s) none (SDL_MapRGB s.format 0xFF 0xFF 0xFF),
              Effect.SDL_UpdateWindowSurface (some w),
              Effect.SDL_Delay 2000],
              some w, some s, false⟩

/-- Lines 25-31: the rectangle and the quit flag on entry to the loop. -/
def startState : LoopState := ⟨⟨370, 480, 20, 20⟩, false⟩

/-- Lines 7-63. -/
def main (env : Env) : Run :=
  let s := startup env
  if s.fault then
    ⟨s.trace, none, 0, Outcome.nullDeref⟩
  else
    let r := eventLoop s.window s.screenSurface env.events startState
    match r.outcome with
    | LoopOutcome.exited =>
        ⟨s.trace ++ r.trace ++ [Effect.SDL_DestroyWindow s.window, Effect.SDL_Quit],
          some r.state.player, r.iterations, Outcome.returned 0⟩
    | LoopOutcome.nullDeref =>
        ⟨s.trace ++ r.trace, some r.state.player, r.iterations, Outcome.nullDeref⟩
    | LoopOutcome.starved =>
        ⟨s.trace ++ r.trace, some r.state.player, r.iterations, Outcome.starved⟩

/-! ## Events and counting used in the statements -/

/-- A key-press event for key code `sym`. -/
def keyDown (sym : Int) : SDL_Event := ⟨SDL_KEYDOWN, sym⟩

/-- The window-close event. -/
def quitEvent : SDL_Event := ⟨SDL_QUIT, 0⟩

/-- Whether `e` is a key press of `sym` that reaches the `switch`. -/
def isPress (sym : Int) (e : SDL_Event) : Bool :=
  decide (e.type = SDL_KEYDOWN) && decide (e.sym = sym)

/-- Number of key presses of `sym` among `evs`. -/
def presses (sym : Int) (evs : List SDL_Event) : Int :=
  ((evs.filter (isPress sym)).length : Int)

/-- Whether a batch holds a window-close event. -/
def hasQuit (b : List SDL_Event) : Bool :=
  b.any (fun e => decide (e.type = SDL_QUIT))

/-- Whether an effect is a call of `SDL_CreateWindow`. -/
def isCreateWindow : Effect → Bool
  | Effect.SDL_CreateWindow _ _ _ => true
  | _ => false

/-- Whether an effect is a call of `SDL_Delay`. -/
def isDelay : Effect → Bool
  | Effect.SDL_Delay _ => true
  | _ => false

/-- Whether an effect is a call of `SDL_PollEvent`. -/
def isPoll : Effect → Bool
  | Effect.SDL_PollEvent _ => true
  | _ => false

/-- Whether an effect is one of the two release calls, `SDL_DestroyWindow` and
`SDL_Quit`. -/
def isShutdown : Effect → Bool
  | Effect.SDL_DestroyWindow _ => true
  | Effect.SDL_Quit => true
  | _ => false

/-- Whether an effect is one the event loop emits: a poll, a fill or a present. -/
def isLoopEffect : Effect → Bool
  | Effect.SDL_PollEvent _ => true
  | Effect.SDL_FillRect _ _ _ => true
  | Effect.SDL_UpdateWindowSurface _ => true
  | _ => false

/-- The rectangles passed to `SDL_FillRect` along a trace. -/
def drawnRects : List Effect → List SDL_Rect
  | [] => []
  | Effect.SDL_FillRect _ (some r) _ :: t => r :: drawnRects t
  | _ :: t => drawnRects t

/-! ## Lemmas on the inner loop -/

theorem drain_append (a b : List SDL_Event) (st : LoopState) :
    drain (a ++ b) st = drain b (drain a st) := by
  induction a generalizing st with
  | nil => rfl
  | cons e es ih => simp [drain, ih]

theorem handleEvent_w (e : SDL_Event) (st : LoopState) :
    (handleEvent e st).player.w = st.player.w ∧ (handleEvent e st).player.h = st.player.h := by
  unfold handleEvent
  split_ifs <;> simp

theorem handleEvent_x (e : SDL_Event) (st : LoopState) :
    (handleEvent e st).player.x
      = st.player.x + presses SDLK_RIGHT [e] - presses SDLK_LEFT [e] := by
  unfold handleEvent presses isPress
  split_ifs <;> simp_all [SDL_QUIT, SDL_KEYDOWN, SDLK_LEFT, SDLK_RIGHT, SDLK_UP, SDLK_DOWN]

theorem handleEvent_y (e : SDL_Event) (st : LoopState) :
    (handleEvent e st).player.y
      = st.player.y + presses SDLK_DOWN [e] - presses SDLK_UP [e] := by
  unfold handleEvent presses isPress
  split_ifs <;> simp_all [SDL_QUIT, SDL_KEYDOWN, SDLK_LEFT, SDLK_RIGHT, SDLK_UP, SDLK_DOWN]

theorem presses_cons (sym : Int) (e : SDL_Event) (es : List SDL_Event) :
    presses sym (e :: es) = presses sym [e] + presses sym es := by
  unfold presses
  by_cases h : isPress sym e = true
  · simp [List.filter, h]; ring
  · simp [List.filter, h]

theorem presses_replicate (sym k : Int) (n : Nat) :
    presses sym (List.replicate n (keyDown k)) = if k = sym then (n : Int) else 0 := by
  induction n with
  | zero => simp [presses]
  | succ n ih =>
      rw [List.replicate_succ, presses_cons, ih]
      by_cases h : k = sym
      · simp [presses, isPress, keyDown, h]; ring
      · simp [presses, isPress, keyDown, h]

theorem drain_player (evs : List SDL_Event) (st : LoopState) :
    (drain evs st).player
      = ⟨st.player.x + presses SDLK_RIGHT evs - presses SDLK_LEFT evs,
         st.player.y + presses SDLK_DOWN evs - presses SDLK_UP evs,
         st.player.w, st.player.h⟩ := by
  induction evs generalizing st with
  | nil => simp [drain, presses]
  | cons e es ih =>
      rw [drain, ih, handleEvent_x, handleEvent_y, (handleEvent_w e st).1,
        (handleEvent_w e st).2, presses_cons SDLK_RIGHT e es, presses_cons SDLK_LEFT e es,
        presses_cons SDLK_DOWN e es, presses_cons SDLK_UP e es]
      congr 1 <;> ring

theorem handleEvent_quit (e : SDL_Event) (st : LoopState) :
    (handleEvent e st).quit = (st.quit || decide (e.type = SDL_QUIT)) := by
  unfold handleEvent
  split_ifs <;> simp_all

theorem drain_quit (evs : List SDL_Event) (st : LoopState) :
    (drain evs st).quit = (st.quit || hasQuit evs) := by
  induction evs generalizing st with
  | nil => simp [drain, hasQuit]
  | cons e es ih =>
      rw [drain, ih, handleEvent_quit]
      simp [hasQuit, Bool.or_assoc]

/-- Along a batch the x coordinate moves by at most one per event, so it stays within the
`int` range for any realistic run. -/
theorem drain_x_near (evs : List SDL_Event) (st : LoopState) :
    |(drain evs st).player.x - st.player.x| ≤ evs.length := by
  induction evs generalizing st with
  | nil => simp [drain]
  | cons e es ih =>
      have h1 := ih (handleEvent e st)
      have h2 : |(handleEvent e st).player.x - st.player.x| ≤ 1 := by
        unfold handleEvent
        split_ifs <;> simp
      rw [drain]
      have h3 := abs_add ((drain es (handleEvent e st)).player.x - (handleEvent e st).player.x)
        ((handleEvent e st).player.x - st.player.x)
      simp only [sub_add_sub_cancel] at h3
      simp only [List.length_cons, Nat.cast_add, Nat.cast_one]
      linarith

/-- Along a batch the y coordinate moves by at most one per event. -/
theorem drain_y_near (evs : List SDL_Event) (st : LoopState) :
    |(drain evs st).player.y - st.player.y| ≤ evs.length := by
  induction evs generalizing st with
  | nil => simp [drain]
  | cons e es ih =>
      have h1 := ih (handleEvent e st)
      have h2 : |(handleEvent e st).player.y - st.player.y| ≤ 1 := by
        unfold handleEvent
        split_ifs <;> simp
      rw [drain]
      have h3 := abs_add ((drain es (handleEvent e st)).player.y - (handleEvent e st).player.y)
        ((handleEvent e st).player.y - st.player.y)
      simp only [sub_add_sub_cancel] at h3
      simp only [List.length_cons, Nat.cast_add, Nat.cast_one]
      linarith

/-! ## Lemmas on the event loop -/

theorem eventLoop_of_quit (window : Option Window) (ss : Option SDL_Surface)
    (batches : List (List SDL_Event)) (st : LoopState) (h : st.quit = true) :
    eventLoop window ss batches st = ⟨[], st, 0, LoopOutcome.exited⟩ := by
  cases batches <;> simp [eventLoop, h]

theorem eventLoop_cons (window : Option Window) (s : SDL_Surface)
    (b : List SDL_Event) (rest : List (List SDL_Event)) (st : LoopState)
    (h : st.quit = false) :
    eventLoop window (some s) (b :: rest) st
      = ⟨pollTrace b ++ renderTrace window s (drain b st).player
            ++ (eventLoop window (some s) rest (drain b st)).trace,
          (eventLoop window (some s) rest (drain b st)).state,
          (eventLoop window (some s) rest (drain b st)).iterations + 1,
          (eventLoop window (some s) rest (drain b st)).outcome⟩ := by
  simp [eventLoop, h]

theorem eventLoop_state (window : Option Window) (ss : Option SDL_Surface)
    (batches : List (List SDL_Event)) (st : LoopState) :
    (eventLoop window ss batches st).state
      = drain (batches.take (eventLoop window ss batches st).iterations).flatten st := by
  induction batches generalizing st with
  | nil => unfold eventLoop; split_ifs <;> simp [drain]
  | cons b rest ih =>
      unfold eventLoop
      split_ifs with hq
      · simp [drain]
      · cases ss with
        | none => simp
        | some s => simp [drain_append, ih]

theorem eventLoop_nil (window : Option Window) (ss : Option SDL_Surface) (st : LoopState)
    (h : st.quit = false) :
    eventLoop window ss [] st = ⟨[], st, 0, LoopOutcome.starved⟩ := by
  simp [eventLoop, h]

theorem drain_flatten_no_quit (pre : List (List SDL_Event)) (st : LoopState)
    (h : st.quit = false) (hpre : ∀ p ∈ pre, hasQuit p = false) :
    (drain pre.flatten st).quit = false := by
  induction pre generalizing st with
  | nil => simpa [drain] using h
  | cons b rest ih =>
      rw [List.flatten_cons, drain_append]
      apply ih
      · rw [drain_quit, h, hpre b (List.mem_cons_self _ _)]; rfl
      · intro p hp
        exact hpre p (List.mem_cons_of_mem _ hp)

/-- While no window-close event has arrived, the loop goes through its batches one by one:
running it on `pre ++ tail` is running it on `pre` and then on `tail`. -/
theorem eventLoop_append (window : Option Window) (s : SDL_Surface)
    (pre tail : List (List SDL_Event)) (st : LoopState)
    (h : st.quit = false) (hpre : ∀ p ∈ pre, hasQuit p = false) :
    eventLoop window (some s) (pre ++ tail) st
      = ⟨(eventLoop window (some s) pre st).trace
            ++ (eventLoop window (some s) tail (drain pre.flatten st)).trace,
          (eventLoop window (some s) tail (drain pre.flatten st)).state,
          pre.length + (eventLoop window (some s) tail (drain pre.flatten st)).iterations,
          (eventLoop window (some s) tail (drain pre.flatten st)).outcome⟩ := by
  induction pre generalizing st with
  | nil => simp [eventLoop_nil, h, drain]
  | cons b rest ih =>
      have hb : (drain b st).quit = false := by
        rw [drain_quit, h, hpre b (List.mem_cons_self _ _)]; rfl
      have hrest : ∀ p ∈ rest, hasQuit p = false :=
        fun p hp => hpre p (List.mem_cons_of_mem _ hp)
      rw [List.cons_append, eventLoop_cons _ _ _ _ _ h, ih _ hb hrest,
        eventLoop_cons _ _ _ _ _ h]
      simp only [drain_append, List.append_assoc, List.flatten_cons, List.length_cons,
        LoopResult.mk.injEq, true_and]
      exact ⟨by omega, trivial⟩

theorem drawnRects_append (a b : List Effect) :
    drawnRects (a ++ b) = drawnRects a ++ drawnRects b := by
  induction a with
  | nil => rfl
  | cons e t ih =>
      cases e with
      | SDL_FillRect dst rect color =>
          cases rect <;> simp [drawnRects, ih]
      | _ => simp [drawnRects, ih]

theorem drawnRects_pollTrace (b : List SDL_Event) : drawnRects (pollTrace b) = [] := by
  induction b with
  | nil => rfl
  | cons e es ih => simpa [pollTrace, drawnRects] using ih

theorem drawnRects_eventLoop (window : Option Window) (s : SDL_Surface)
    (batches : List (List SDL_Event)) (st : LoopState) :
    drawnRects (eventLoop window (some s) batches st).trace
      = (List.range (eventLoop window (some s) batches st).iterations).map
          (fun i => (drain (batches.take (i + 1)).flatten st).player) := by
  induction batches generalizing st with
  | nil => unfold eventLoop; split_ifs <;> simp [drawnRects]
  | cons b rest ih =>
      by_cases hq : st.quit = true
      · simp [eventLoop_of_quit _ _ _ _ hq, drawnRects]
      · have hq2 : st.quit = false := by simpa using hq
        rw [eventLoop_cons _ _ _ _ _ hq2]
        simp only [drawnRects_append, drawnRects_pollTrace, renderTrace, drawnRects, ih,
          List.range_succ_eq_map, List.map_cons, List.map_map]
        simp [drain_append, Function.comp_def]

/-! ## Lemmas on whole runs -/

theorem mem_pollTrace (e : SDL_Event) (b : List SDL_Event) (h : e ∈ b) :
    Effect.SDL_PollEvent (some e) ∈ pollTrace b := by
  induction b with
  | nil => cases h
  | cons a es ih =>
      rcases List.mem_cons.mp h with h1 | h1
      · subst h1; simp [pollTrace]
      · simp [pollTrace, ih h1]

theorem pollTrace_loopEffects (b : List SDL_Event) :
    ∀ e ∈ pollTrace b, isLoopEffect e = true := by
  induction b with
  | nil => simp [pollTrace, isLoopEffect]
  | cons a es ih =>
      intro e he
      rcases List.mem_cons.mp he with h1 | h1
      · subst h1; rfl
      · exact ih e h1

theorem eventLoop_trace_loopEffects (window : Option Window) (ss : Option SDL_Surface)
    (batches : List (List SDL_Event)) (st : LoopState) :
    ∀ e ∈ (eventLoop window ss batches st).trace, isLoopEffect e = true := by
  induction batches generalizing st with
  | nil => unfold eventLoop; split_ifs <;> simp
  | cons b rest ih =>
      unfold eventLoop
      split_ifs with hq
      · simp
      · cases ss with
        | none => exact pollTrace_loopEffects b
        | some s =>
            intro e he
            simp only [List.mem_append] at he
            rcases he with (h1 | h1) | h1
            · exact pollTrace_loopEffects b e h1
            · simp only [renderTrace, List.mem_cons, List.mem_singleton,
                List.not_mem_nil, or_false] at h1
              rcases h1 with h1 | h1 | h1 <;> subst h1 <;> rfl
            · exact ih _ e h1

theorem filter_loop_trace (p : Effect → Bool)
    (hp : ∀ e, isLoopEffect e = true → p e = false)
    (window : Option Window) (ss : Option SDL_Surface)
    (batches : List (List SDL_Event)) (st : LoopState) :
    (eventLoop window ss batches st).trace.filter p = [] := by
  rw [List.filter_eq_nil_iff]
  intro e he
  simp [hp e (eventLoop_trace_loopEffects window ss batches st e he)]

theorem eventLoop_null_not_exited (window : Option Window)
    (batches : List (List SDL_Event)) (st : LoopState) (hq : st.quit = false) :
    (eventLoop window none batches st).outcome ≠ LoopOutcome.exited := by
  cases batches <;> simp [eventLoop, hq]

theorem eventLoop_exited_polled_quit (window : Option Window) (ss : Option SDL_Surface)
    (batches : List (List SDL_Event)) (st : LoopState) (hq : st.quit = false)
    (hx : (eventLoop window ss batches st).outcome = LoopOutcome.exited) :
    ∃ e, e.type = SDL_QUIT
      ∧ Effect.SDL_PollEvent (some e) ∈ (eventLoop window ss batches st).trace := by
  induction batches generalizing st with
  | nil => simp [eventLoop, hq] at hx
  | cons b rest ih =>
      cases ss with
      | none => exact absurd hx (eventLoop_null_not_exited window _ st hq)
      | some s =>
          rw [eventLoop_cons _ _ _ _ _ hq] at hx ⊢
          simp only at hx
          by_cases hb : (drain b st).quit = true
          · rw [drain_quit, hq] at hb
            simp only [Bool.false_or, hasQuit, List.any_eq_true, decide_eq_true_eq] at hb
            obtain ⟨e, he, hty⟩ := hb
            exact ⟨e, hty, by simp [mem_pollTrace e b he]⟩
          · have hb2 : (drain b st).quit = false := by simpa using hb
            obtain ⟨e, hty, he⟩ := ih (drain b st) hb2 hx
            exact ⟨e, hty, by simp [he]⟩

/-- The trace of a run: start-up, then the loop, then the two release calls when the loop
was left through its condition. -/
theorem main_trace (env : Env) :
    (main env).trace
      = (startup env).trace
          ++ (if (startup env).fault = true then []
              else (eventLoop (startup env).window (startup env).screenSurface env.events
                      startState).trace
                ++ (if (eventLoop (startup env).window (startup env).screenSurface
                        env.events startState).outcome = LoopOutcome.exited
                    then [Effect.SDL_DestroyWindow (startup env).window, Effect.SDL_Quit]
                    else [])) := by
  unfold main
  by_cases hf : (startup env).fault = true
  · simp [hf]
  · simp only [hf, Bool.false_eq_true, if_false]
    cases hx : (eventLoop (startup env).window (startup env).screenSurface env.events
        startState).outcome <;> simp [List.append_assoc]

theorem main_returned_iff (env : Env) :
    (main env).outcome = Outcome.returned 0
      ↔ ((startup env).fault = false
          ∧ (eventLoop (startup env).window (startup env).screenSurface env.events
                startState).outcome = LoopOutcome.exited) := by
  unfold main
  by_cases hf : (startup env).fault = true
  · simp [hf]
  · simp only [hf, Bool.false_eq_true, if_false]
    cases hx : (eventLoop (startup env).window (startup env).screenSurface env.events
        startState).outcome <;> simp_all

/-! ## C1 -/

/-- C1: for every rectangle `(x, y, w, h)` and one key-press event, Left gives
`(x-1, y, w, h)`, Right `(x+1, y, w, h)`, Up `(x, y-1, w, h)` and Down `(x, y+1, w, h)`;
the quit flag is untouched; nothing clamps to the 800x600 window, so 800 becomes 801 and
0 becomes -1 on either axis (600 becomes 601 on y). -/
theorem keypress_moves_one_pixel (x y w h : Int) (q : Bool) :
    handleEvent (keyDown SDLK_LEFT) ⟨⟨x, y, w, h⟩, q⟩ = ⟨⟨x - 1, y, w, h⟩, q⟩
    ∧ handleEvent (keyDown SDLK_RIGHT) ⟨⟨x, y, w, h⟩, q⟩ = ⟨⟨x + 1, y, w, h⟩, q⟩
    ∧ handleEvent (keyDown SDLK_UP) ⟨⟨x, y, w, h⟩, q⟩ = ⟨⟨x, y - 1, w, h⟩, q⟩
    ∧ handleEvent (keyDown SDLK_DOWN) ⟨⟨x, y, w, h⟩, q⟩ = ⟨⟨x, y + 1, w, h⟩, q⟩
    ∧ (handleEvent (keyDown SDLK_RIGHT) ⟨⟨SCREEN_WIDTH, y, w, h⟩, q⟩).player.x = 801
    ∧ (handleEvent (keyDown SDLK_LEFT) ⟨⟨0, y, w, h⟩, q⟩).player.x = -1
    ∧ (handleEvent (keyDown SDLK_DOWN) ⟨⟨x, SCREEN_HEIGHT, w, h⟩, q⟩).player.y = 601
    ∧ (handleEvent (keyDown SDLK_UP) ⟨⟨x, 0, w, h⟩, q⟩).player.y = -1 := by
  simp [handleEvent, keyDown, SDL_QUIT, SDL_KEYDOWN, SDLK_LEFT, SDLK_RIGHT, SDLK_UP,
    SDLK_DOWN, SCREEN_WIDTH, SCREEN_HEIGHT]

/-! ## C2 -/

/-- C2: the events the loop has processed, in whatever order and however split into poll
batches, leave the rectangle at `(370 + R - L, 480 + D - U, 20, 20)`, with `R`, `L`, `D`,
`U` the numbers of Right, Left, Down and Up key presses among them: this holds for the
inner loop fed the batches one after the other and for the result of the event loop on
the batches it went through.  `N` Right presses from `x = X0` give `X0 + N` (so 801 and
more from 800), and Down, Down, Right from the start gives `(371, 482)`. -/
theorem position_is_start_plus_key_counts (window : Option Window)
    (ss : Option SDL_Surface) (s : SDL_Surface) (batches : List (List SDL_Event))
    (X0 y w h : Int) (q : Bool) (N : Nat) :
    (batches.foldl (fun st b => drain b st) startState).player
        = ⟨370 + presses SDLK_RIGHT batches.flatten - presses SDLK_LEFT batches.flatten,
           480 + presses SDLK_DOWN batches.flatten - presses SDLK_UP batches.flatten, 20, 20⟩
    ∧ (eventLoop window ss batches startState).state.player
        = ⟨370 + presses SDLK_RIGHT
                  (batches.take (eventLoop window ss batches startState).iterations).flatten
               - presses SDLK_LEFT
                  (batches.take (eventLoop window ss batches startState).iterations).flatten,
           480 + presses SDLK_DOWN
                  (batches.take (eventLoop window ss batches startState).iterations).flatten
               - presses SDLK_UP
                  (batches.take (eventLoop window ss batches startState).iterations).flatten,
           20, 20⟩
    ∧ (drain (List.replicate N (keyDown SDLK_RIGHT)) ⟨⟨X0, y, w, h⟩, q⟩).player
        = ⟨X0 + N, y, w, h⟩
    ∧ (eventLoop window (some s)
          [[keyDown SDLK_DOWN, keyDown SDLK_DOWN, keyDown SDLK_RIGHT]] startState).state.player
        = ⟨371, 482, 20, 20⟩
    ∧ (eventLoop window (some s)
          [[keyDown SDLK_DOWN], [], [keyDown SDLK_DOWN, keyDown SDLK_RIGHT]]
          startState).state.player
        = ⟨371, 482, 20, 20⟩ := by
  refine ⟨?_, ?_, ?_, ?_, ?_⟩
  · have hfold : ∀ (bs : List (List SDL_Event)) (st : LoopState),
        bs.foldl (fun st b => drain b st) st = drain bs.flatten st := by
      intro bs
      induction bs with
      | nil => intro st; rfl
      | cons b rest ih => intro st; simp [drain_append, ih]
    rw [hfold, drain_player]
    rfl
  · rw [eventLoop_state, drain_player]
    rfl
  · rw [drain_player]
    simp [presses_replicate, SDLK_LEFT, SDLK_RIGHT, SDLK_UP, SDLK_DOWN]
  · simp [eventLoop, startState, drain, handleEvent, keyDown, SDL_QUIT, SDL_KEYDOWN,
      SDLK_LEFT, SDLK_RIGHT, SDLK_UP, SDLK_DOWN]
  · simp [eventLoop, startState, drain, handleEvent, keyDown, SDL_QUIT, SDL_KEYDOWN,
      SDLK_LEFT, SDLK_RIGHT, SDLK_UP, SDLK_DOWN]

/-! ## C3 -/

/-- C3: an event that is not a key press of Left, Right, Up or Down (another key, the
window-close event, any other event type) leaves `x`, `y`, `w` and `h` as they were; and
on a run that receives no events the rectangle stays `(370, 480, 20, 20)` through every
iteration, which is also the rectangle drawn each time. -/
theorem only_arrow_presses_move (e : SDL_Event) (st : LoopState) (n : Nat)
    (window : Option Window) (ss : Option SDL_Surface) (s : SDL_Surface)
    (h : ¬ (e.type = SDL_KEYDOWN
        ∧ (e.sym = SDLK_LEFT ∨ e.sym = SDLK_RIGHT ∨ e.sym = SDLK_UP ∨ e.sym = SDLK_DOWN))) :
    (handleEvent e st).player = st.player
    ∧ (eventLoop window ss (List.replicate n []) startState).state = startState
    ∧ (eventLoop window (some s) (List.replicate n []) startState).iterations = n
    ∧ drawnRects (eventLoop window (some s) (List.replicate n []) startState).trace
        = List.replicate n ⟨370, 480, 20, 20⟩ := by
  have hflat : ∀ k : Nat,
      (List.replicate k ([] : List SDL_Event)).flatten = [] := by
    intro k
    induction k with
    | zero => rfl
    | succ k ih => simp [List.replicate_succ, ih]
  have hiter : (eventLoop window (some s) (List.replicate n []) startState).iterations = n := by
    have := eventLoop_append window s (List.replicate n []) [] startState rfl
      (by intro p hp; rw [List.eq_of_mem_replicate hp]; rfl)
    rw [List.append_nil] at this
    rw [this]
    simp [hflat, drain, eventLoop_nil, startState]
  refine ⟨?_, ?_, hiter, ?_⟩
  · unfold handleEvent
    split_ifs <;> simp_all
  · rw [eventLoop_state]
    have : (List.take (eventLoop window ss (List.replicate n []) startState).iterations
        (List.replicate n ([] : List SDL_Event))).flatten = [] := by
      rw [List.take_replicate]
      exact hflat _
    rw [this]
    rfl
  · rw [drawnRects_eventLoop, hiter]
    apply List.ext_getElem
    · simp
    · intro i h1 h2
      simp [List.take_replicate, hflat, drain, startState]

/-- Witness for C3 at a press of the `a` key, three empty batches. -/
theorem only_arrow_presses_move_witness :
    ¬ ((keyDown 97).type = SDL_KEYDOWN
        ∧ ((keyDown 97).sym = SDLK_LEFT ∨ (keyDown 97).sym = SDLK_RIGHT
          ∨ (keyDown 97).sym = SDLK_UP ∨ (keyDown 97).sym = SDLK_DOWN))
    ∧ (handleEvent (keyDown 97) startState).player = startState.player
    ∧ (eventLoop (some 1) none (List.replicate 3 []) startState).state = startState
    ∧ (eventLoop (some 1) (some ⟨0⟩) (List.replicate 3 []) startState).iterations = 3
    ∧ drawnRects (eventLoop (some 1) (some ⟨0⟩) (List.replicate 3 []) startState).trace
        = List.replicate 3 ⟨370, 480, 20, 20⟩ :=
  ⟨by decide, only_arrow_presses_move (keyDown 97) startState 3 (some 1) none ⟨0⟩ (by decide)⟩

/-! ## C4 -/

/-- C4: entered with a usable surface and the quit flag clear, if batch `b` is the first
batch holding a window-close event (none of the batches `pre` before it holds one), the
loop still applies every event of `b` (those after the close event too), draws iteration
`b` once, and then exits: the trace is that of the iterations over `pre`, the polls of
`b` and one redraw, and the batches `post` are never polled. A flag that is set stays
set through any further events; a Right press queued behind the close event still moves
the rectangle to x = 371. -/
theorem close_exits_after_the_iteration (window : Option Window) (s : SDL_Surface)
    (pre : List (List SDL_Event)) (b : List SDL_Event) (post : List (List SDL_Event))
    (st : LoopState) (evs : List SDL_Event) (r : SDL_Rect)
    (hq : st.quit = false) (hpre : ∀ p ∈ pre, hasQuit p = false) (hb : hasQuit b = true) :
    (eventLoop window (some s) (pre ++ b :: post) st).outcome = LoopOutcome.exited
    ∧ (eventLoop window (some s) (pre ++ b :: post) st).iterations = pre.length + 1
    ∧ (eventLoop window (some s) (pre ++ b :: post) st).state = drain b (drain pre.flatten st)
    ∧ (eventLoop window (some s) (pre ++ b :: post) st).state.quit = true
    ∧ (eventLoop window (some s) (pre ++ b :: post) st).trace
        = (eventLoop window (some s) pre st).trace ++ pollTrace b
            ++ renderTrace window s (drain b (drain pre.flatten st)).player
    ∧ eventLoop window (some s) (pre ++ b :: post) st
        = eventLoop window (some s) (pre ++ [b]) st
    ∧ (drain evs ⟨r, true⟩).quit = true
    ∧ (eventLoop window (some s) [[quitEvent, keyDown SDLK_RIGHT], [keyDown SDLK_RIGHT]]
          startState).state = ⟨⟨371, 480, 20, 20⟩, true⟩ := by
  have hmid : (drain pre.flatten st).quit = false := drain_flatten_no_quit pre st hq hpre
  have hend : (drain b (drain pre.flatten st)).quit = true := by
    rw [drain_quit, hb]; simp
  have key : ∀ tail : List (List SDL_Event),
      eventLoop window (some s) (pre ++ b :: tail) st
        = ⟨(eventLoop window (some s) pre st).trace ++ pollTrace b
              ++ renderTrace window s (drain b (drain pre.flatten st)).player,
            drain b (drain pre.flatten st), pre.length + 1, LoopOutcome.exited⟩ := by
    intro tail
    rw [eventLoop_append window s pre (b :: tail) st hq hpre,
      eventLoop_cons _ _ _ _ _ hmid, eventLoop_of_quit _ _ _ _ hend]
    simp [List.append_assoc]
  refine ⟨?_, ?_, ?_, ?_, ?_, ?_, ?_, ?_⟩
  · rw [key]
  · rw [key]
  · rw [key]
  · rw [key]; exact hend
  · rw [key]
  · rw [key, key]
  · rw [drain_quit]; rfl
  · simp [eventLoop, startState, drain, handleEvent, keyDown, quitEvent, SDL_QUIT,
      SDL_KEYDOWN, SDLK_LEFT, SDLK_RIGHT, SDLK_UP, SDLK_DOWN]

/-- Witness for C4: a Left press, then a batch with the close event followed by a Right
press, then a batch that is never reached. -/
theorem close_exits_after_the_iteration_witness :
    startState.quit = false
    ∧ (∀ p ∈ [[keyDown SDLK_LEFT]], hasQuit p = false)
    ∧ hasQuit [quitEvent, keyDown SDLK_RIGHT] = true
    ∧ (eventLoop (some 1) (some ⟨0⟩)
          ([[keyDown SDLK_LEFT]] ++ [quitEvent, keyDown SDLK_RIGHT] :: [[keyDown SDLK_UP]])
          startState).outcome = LoopOutcome.exited :=
  ⟨rfl, by decide, by decide,
    (close_exits_after_the_iteration (some 1) ⟨0⟩ [[keyDown SDLK_LEFT]]
      [quitEvent, keyDown SDLK_RIGHT] [[keyDown SDLK_UP]] startState [] ⟨0, 0, 0, 0⟩
      rfl (by decide) (by decide)).1⟩

/-! ## C9 -/

/-- C9: entered with a usable surface, every iteration the loop runs (the one over batch
`b`, reached after the close-free batches `pre`; `b` may be empty and may hold the close
event) emits, after all polls of `b`, exactly three render effects in this order: fill
the whole surface white (0xFF, 0xFF, 0xFF), fill the rectangle as it stands after all
events of `b` green (0x00, 0xFF, 0x00), present.  The render effects depend on the
rectangle only, and the rectangles drawn over a run are the ones at the end of each
batch, never one from inside a batch. -/
theorem each_iteration_draws_three_effects (window : Option Window) (s : SDL_Surface)
    (pre : List (List SDL_Event)) (b : List SDL_Event) (post batches : List (List SDL_Event))
    (st st2 : LoopState)
    (hq : st.quit = false) (hpre : ∀ p ∈ pre, hasQuit p = false) :
    (eventLoop window (some s) (pre ++ b :: post) st).trace
        = (eventLoop window (some s) pre st).trace
            ++ pollTrace b
            ++ [ Effect.SDL_FillRect (some s) none (SDL_MapRGB s.format 0xFF 0xFF 0xFF),
                 Effect.SDL_FillRect (some s) (some (drain b (drain pre.flatten st)).player)
                   (SDL_MapRGB s.format 0x00 0xFF 0x00),
                 Effect.SDL_UpdateWindowSurface window ]
            ++ (eventLoop window (some s) post (drain b (drain pre.flatten st))).trace
    ∧ drawnRects (eventLoop window (some s) batches st2).trace
        = (List.range (eventLoop window (some s) batches st2).iterations).map
            (fun i => (drain (batches.take (i + 1)).flatten st2).player)
    ∧ (eventLoop window (some s)
          [[], [keyDown SDLK_RIGHT, keyDown SDLK_RIGHT, quitEvent, keyDown SDLK_LEFT]]
          startState).trace
        = [ Effect.SDL_PollEvent none,
            Effect.SDL_FillRect (some s) none (SDL_MapRGB s.format 0xFF 0xFF 0xFF),
            Effect.SDL_FillRect (some s) (some ⟨370, 480, 20, 20⟩)
              (SDL_MapRGB s.format 0x00 0xFF 0x00),
            Effect.SDL_UpdateWindowSurface window,
            Effect.SDL_PollEvent (some (keyDown SDLK_RIGHT)),
            Effect.SDL_PollEvent (some (keyDown SDLK_RIGHT)),
            Effect.SDL_PollEvent (some quitEvent),
            Effect.SDL_PollEvent (some (keyDown SDLK_LEFT)),
            Effect.SDL_PollEvent none,
            Effect.SDL_FillRect (some s) none (SDL_MapRGB s.format 0xFF 0xFF 0xFF),
            Effect.SDL_FillRect (some s) (some ⟨371, 480, 20, 20⟩)
              (SDL_MapRGB s.format 0x00 0xFF 0x00),
            Effect.SDL_UpdateWindowSurface window ] := by
  have hmid : (drain pre.flatten st).quit = false := drain_flatten_no_quit pre st hq hpre
  refine ⟨?_, drawnRects_eventLoop window s batches st2, ?_⟩
  · rw [eventLoop_append window s pre (b :: post) st hq hpre,
      eventLoop_cons _ _ _ _ _ hmid]
    simp [renderTrace, List.append_assoc]
  · simp [eventLoop, startState, drain, handleEvent, keyDown, quitEvent, SDL_QUIT,
      SDL_KEYDOWN, SDLK_LEFT, SDLK_RIGHT, SDLK_UP, SDLK_DOWN, pollTrace, renderTrace]

/-- Witness for C9: the iteration over an empty batch that follows one Right press. -/
theorem each_iteration_draws_three_effects_witness :
    startState.quit = false
    ∧ (∀ p ∈ [[keyDown SDLK_RIGHT]], hasQuit p = false)
    ∧ (eventLoop (some 1) (some ⟨0⟩) ([[keyDown SDLK_RIGHT]] ++ [] :: [[quitEvent]])
          startState).trace
        = (eventLoop (some 1) (some ⟨0⟩) [[keyDown SDLK_RIGHT]] startState).trace
            ++ pollTrace []
            ++ [ Effect.SDL_FillRect (some ⟨0⟩) none (SDL_MapRGB 0 0xFF 0xFF 0xFF),
                 Effect.SDL_FillRect (some ⟨0⟩)
                   (some (drain [] (drain [[keyDown SDLK_RIGHT]].flatten startState)).player)
                   (SDL_MapRGB 0 0x00 0xFF 0x00),
                 Effect.SDL_UpdateWindowSurface (some 1) ]
            ++ (eventLoop (some 1) (some ⟨0⟩) [[quitEvent]]
                  (drain [] (drain [[keyDown SDLK_RIGHT]].flatten startState))).trace :=
  ⟨rfl, by decide,
    (each_iteration_draws_three_effects (some 1) ⟨0⟩ [[keyDown SDLK_RIGHT]] []
      [[quitEvent]] [] startState startState rfl (by decide)).1⟩

/-! ## C5 -/

/-- C5 fails on the code: when `SDL_Init` fails, lines 11-12 leave `window` and
`screenSurface` null, the loop is entered all the same, and after the first drain line 54
reads `screenSurface->format` through the null pointer.  The same happens when
`SDL_CreateWindow` returns null. -/
theorem loop_entered_with_null_handles :
    (startup ⟨-1, none, none, "", [[]]⟩).window = none
    ∧ (startup ⟨-1, none, none, "", [[]]⟩).screenSurface = none
    ∧ (startup ⟨-1, none, none, "", [[]]⟩).fault = false
    ∧ (main ⟨-1, none, none, "", [[]]⟩).iterations = 1
    ∧ (main ⟨-1, none, none, "", [[]]⟩).outcome = Outcome.nullDeref
    ∧ (startup ⟨0, none, none, "", [[]]⟩).screenSurface = none
    ∧ (main ⟨0, none, none, "", [[]]⟩).outcome = Outcome.nullDeref := by
  decide

/-! ## C7 -/

/-- C7 fails on the code: with the same one-batch event stream holding the close event,
the run after a successful start-up goes once round the loop and returns 0, while the
run after a failed `SDL_Init` (and likewise after a failed `SDL_CreateWindow`) prints its
message, creates the rectangle, drains the batch and then reads through the null
`screenSurface` at line 54: no redraw, no return. -/
theorem failed_startup_run_does_not_return :
    main ⟨-1, none, none, "No available video device", [[quitEvent]]⟩
        = ⟨[ Effect.SDL_Init,
             Effect.cout "SDL could not initialize! SDL_Error: No available video device\n",
             Effect.SDL_PollEvent (some quitEvent),
             Effect.SDL_PollEvent none ],
            some ⟨370, 480, 20, 20⟩, 1, Outcome.nullDeref⟩
    ∧ (main ⟨0, none, none, "No available video device", [[quitEvent]]⟩).outcome
        = Outcome.nullDeref
    ∧ (main ⟨0, some 1, some ⟨0⟩, "", [[quitEvent]]⟩).outcome = Outcome.returned 0
    ∧ (main ⟨0, some 1, some ⟨0⟩, "", [[quitEvent]]⟩).iterations = 1
    ∧ (main ⟨0, some 1, some ⟨0⟩, "", [[quitEvent]]⟩).player = some ⟨370, 480, 20, 20⟩ := by
  decide

/-! ## C6 -/

/-- C6 as stated fails: the run on which `SDL_Init` returns -1 prints the message and goes
on to poll events; no `SDL_CreateWindow` call is in its trace. -/
theorem window_creation_skipped_after_failed_init :
    (main ⟨-1, none, none, "", [[quitEvent]]⟩).trace.any isCreateWindow = false
    ∧ (main ⟨-1, none, none, "", [[quitEvent]]⟩).trace
        = [ Effect.SDL_Init,
            Effect.cout "SDL could not initialize! SDL_Error: \n",
            Effect.SDL_PollEvent (some quitEvent),
            Effect.SDL_PollEvent none ] := by
  decide

/-- C6, amended: `SDL_CreateWindow` is called exactly on the runs on which `SDL_Init`
succeeded, once, as the second effect; when `SDL_Init` fails the second effect is the
error message instead and the run has no window-creation call at all. -/
theorem window_creation_only_after_init (env : Env) :
    (main env).trace.any isCreateWindow = decide (0 ≤ env.initResult)
    ∧ (main env).trace.filter isCreateWindow
        = (if 0 ≤ env.initResult
            then [Effect.SDL_CreateWindow "SDL Tutorial" SCREEN_WIDTH SCREEN_HEIGHT]
            else [])
    ∧ (main env).trace.take 2
        = (if env.initResult < 0
            then [Effect.SDL_Init,
                  Effect.cout ("SDL could not initialize! SDL_Error: " ++ env.error ++ "\n")]
            else [Effect.SDL_Init,
                  Effect.SDL_CreateWindow "SDL Tutorial" SCREEN_WIDTH SCREEN_HEIGHT]) := by
  have hloop := filter_loop_trace isCreateWindow
    (by intro e he; cases e <;> simp_all [isLoopEffect, isCreateWindow])
    (startup env).window (startup env).screenSurface env.events startState
  have hfilter : (main env).trace.filter isCreateWindow
      = (if 0 ≤ env.initResult
          then [Effect.SDL_CreateWindow "SDL Tutorial" SCREEN_WIDTH SCREEN_HEIGHT]
          else []) := by
    rw [main_trace]
    simp only [List.filter_append, apply_ite (List.filter isCreateWindow), hloop,
      List.filter_nil, List.nil_append]
    have hshut : List.filter isCreateWindow
        [Effect.SDL_DestroyWindow (startup env).window, Effect.SDL_Quit] = [] := rfl
    rw [hshut]
    simp only [ite_self, List.append_nil]
    unfold startup
    by_cases hi : env.initResult < 0
    · have hi2 : ¬ (0 ≤ env.initResult) := not_le.mpr hi
      simp [hi, hi2, isCreateWindow, List.filter]
    · have hi2 : 0 ≤ env.initResult := not_lt.mp hi
      cases hc : env.createResult with
      | none => simp [hi, hi2, isCreateWindow, List.filter]
      | some w =>
          cases hs : env.surfaceResult <;> simp [hi, hi2, isCreateWindow, List.filter]
  refine ⟨?_, hfilter, ?_⟩
  · by_cases hi : 0 ≤ env.initResult
    · have hmem : Effect.SDL_CreateWindow "SDL Tutorial" SCREEN_WIDTH SCREEN_HEIGHT
          ∈ (main env).trace.filter isCreateWindow := by rw [hfilter]; simp [hi]
      simp only [hi, decide_True, List.any_eq_true]
      exact ⟨_, (List.mem_filter.mp hmem).1, rfl⟩
    · simp only [hi, decide_False]
      rw [if_neg hi, List.filter_eq_nil_iff] at hfilter
      cases hany : (main env).trace.any isCreateWindow with
      | false => rfl
      | true =>
          obtain ⟨e, he, hp⟩ := List.any_eq_true.mp hany
          exact absurd hp (hfilter e he)
  · rw [main_trace]
    unfold startup
    by_cases hi : env.initResult < 0
    · simp [hi]
    · cases hc : env.createResult with
      | none => simp [hi]
      | some w => cases hs : env.surfaceResult <;> simp [hi]

/-! ## C8 -/

/-- C8 as stated fails: the run on which `SDL_Init` returns -1 and the run on which
`SDL_CreateWindow` returns null go from the error message straight to the first poll,
with no fill, no present and no `SDL_Delay` in between. -/
theorem preview_skipped_after_failed_startup :
    (main ⟨-1, none, none, "", [[quitEvent]]⟩).trace.filter isDelay = []
    ∧ (startup ⟨-1, none, none, "", [[quitEvent]]⟩).trace
        = [ Effect.SDL_Init,
            Effect.cout "SDL could not initialize! SDL_Error: \n" ]
    ∧ (main ⟨0, none, none, "", [[quitEvent]]⟩).trace.filter isDelay = []
    ∧ (startup ⟨0, none, none, "", [[quitEvent]]⟩).trace
        = [ Effect.SDL_Init,
            Effect.SDL_CreateWindow "SDL Tutorial" 800 600,
            Effect.cout "Window could not be created! SDL_Error: \n" ] := by
  decide

/-- C8, amended: the preview happens on the runs on which `SDL_Init` succeeded and both
the window and its surface were obtained, and on no other run.  On those runs it happens
once, in the order fill the whole surface white, present, `SDL_Delay(2000)`, right after
the surface was fetched and before the first poll; what follows is the event loop and the
shutdown, which contain no `SDL_Delay`. -/
theorem preview_once_when_window_exists (env : Env) (k : Nat) (w : Window)
    (s : SDL_Surface) (err : String) (events : List (List SDL_Event)) :
    (main env).trace.filter isDelay
        = (if 0 ≤ env.initResult ∧ env.createResult.isSome = true
              ∧ env.surfaceResult.isSome = true
            then [Effect.SDL_Delay 2000] else [])
    ∧ (startup env).trace.filter isLoopEffect
        = (match env.surfaceResult with
            | some s0 =>
                if 0 ≤ env.initResult ∧ env.createResult.isSome = true
                then [Effect.SDL_FillRect (some s0) none (SDL_MapRGB s0.format 0xFF 0xFF 0xFF),
                      Effect.SDL_UpdateWindowSurface env.createResult]
                else []
            | none => [])
    ∧ (main ⟨(k : Int), some w, some s, err, events⟩).trace.take 6
        = [ Effect.SDL_Init,
            Effect.SDL_CreateWindow "SDL Tutorial" SCREEN_WIDTH SCREEN_HEIGHT,
            Effect.SDL_GetWindowSurface (some w),
            Effect.SDL_FillRect (some s) none (SDL_MapRGB s.format 0xFF 0xFF 0xFF),
            Effect.SDL_UpdateWindowSurface (some w),
            Effect.SDL_Delay 2000 ]
    ∧ (main ⟨(k : Int), some w, some s, err, events⟩).trace.drop 6
        = (eventLoop (some w) (some s) events startState).trace
            ++ (if (eventLoop (some w) (some s) events startState).outcome
                    = LoopOutcome.exited
                then [Effect.SDL_DestroyWindow (some w), Effect.SDL_Quit] else [])
    ∧ ((main ⟨(k : Int), some w, some s, err, events⟩).trace.drop 6).filter isDelay = [] := by
  have hloop : ∀ (win : Option Window) (ss : Option SDL_Surface)
      (ev : List (List SDL_Event)),
      (eventLoop win ss ev startState).trace.filter isDelay = [] :=
    fun win ss ev => filter_loop_trace isDelay
      (by intro e he; cases e <;> simp_all [isLoopEffect, isDelay]) win ss ev startState
  have hk : ¬ ((k : Int) < 0) := not_lt.mpr (Int.ofNat_nonneg k)
  have hdrop : (main ⟨(k : Int), some w, some s, err, events⟩).trace.drop 6
      = (eventLoop (some w) (some s) events startState).trace
          ++ (if (eventLoop (some w) (some s) events startState).outcome
                  = LoopOutcome.exited
              then [Effect.SDL_DestroyWindow (some w), Effect.SDL_Quit] else []) := by
    rw [main_trace]
    simp [startup, hk]
  refine ⟨?_, ?_, ?_, hdrop, ?_⟩
  · rw [main_trace]
    simp only [List.filter_append, apply_ite (List.filter isDelay), hloop,
      List.filter_nil, List.nil_append]
    have hshut : List.filter isDelay
        [Effect.SDL_DestroyWindow (startup env).window, Effect.SDL_Quit] = [] := rfl
    rw [hshut]
    simp only [ite_self, List.append_nil]
    unfold startup
    by_cases hi : env.initResult < 0
    · have hi2 : ¬ (0 ≤ env.initResult) := not_le.mpr hi
      simp [hi, hi2, isDelay, List.filter]
    · have hi2 : 0 ≤ env.initResult := not_lt.mp hi
      cases hc : env.createResult with
      | none => simp [hi, isDelay, List.filter]
      | some w0 =>
          cases hs : env.surfaceResult <;> simp [hi, hi2, isDelay, List.filter]
  · unfold startup
    by_cases hi : env.initResult < 0
    · have hi2 : ¬ (0 ≤ env.initResult) := not_le.mpr hi
      cases hs : env.surfaceResult <;> simp [hi, hi2, isLoopEffect, List.filter]
    · have hi2 : 0 ≤ env.initResult := not_lt.mp hi
      cases hc : env.createResult with
      | none => cases hs : env.surfaceResult <;> simp [hi, isLoopEffect, List.filter]
      | some w0 =>
          cases hs : env.surfaceResult <;>
            simp [hi, hi2, isLoopEffect, List.filter, SDL_MapRGB]
  · rw [main_trace]
    simp [startup, hk]
  · rw [hdrop, List.filter_append, hloop]
    split_ifs <;> rfl

/-! ## C10 -/

/-- C10: on every run that returns, the trace ends with `SDL_DestroyWindow(window)` then
`SDL_Quit()`, these are the only release calls of the run, a window-close event was
polled before them, and both the subsystem and the window had been acquired.  A run on
which `SDL_Init` failed or no window was created has no release call: it never gets past
the read of `screenSurface->format` at line 54. -/
theorem release_once_at_the_end (env : Env) :
    ((main env).outcome = Outcome.returned 0 →
      ∃ pre w e, 0 ≤ env.initResult ∧ env.createResult = some w
        ∧ (main env).trace = pre ++ [Effect.SDL_DestroyWindow (some w), Effect.SDL_Quit]
        ∧ pre.filter isShutdown = []
        ∧ e.type = SDL_QUIT ∧ Effect.SDL_PollEvent (some e) ∈ pre)
    ∧ ((env.initResult < 0 ∨ env.createResult = none) →
        (main env).trace.filter isShutdown = []
        ∧ (main env).outcome ≠ Outcome.returned 0) := by
  have hloop := filter_loop_trace isShutdown
    (by intro e he; cases e <;> simp_all [isLoopEffect, isShutdown])
    (startup env).window (startup env).screenSurface env.events startState
  have hstart : (startup env).trace.filter isShutdown = [] := by
    unfold startup
    by_cases hi : env.initResult < 0
    · simp [hi, isShutdown, List.filter]
    · cases hc : env.createResult with
      | none => simp [hi, isShutdown, List.filter]
      | some w0 => cases hs : env.surfaceResult <;> simp [hi, isShutdown, List.filter]
  constructor
  · intro hret
    obtain ⟨hf, hx⟩ := (main_returned_iff env).mp hret
    have hss : (startup env).screenSurface ≠ none := by
      intro hnone
      rw [hnone] at hx
      exact eventLoop_null_not_exited _ _ startState rfl hx
    obtain ⟨e, hty, he⟩ := eventLoop_exited_polled_quit _ _ _ startState rfl hx
    have hacq : 0 ≤ env.initResult ∧ ∃ w, env.createResult = some w
        ∧ (startup env).window = some w := by
      unfold startup at hss ⊢
      by_cases hi : env.initResult < 0
      · simp [hi] at hss
      · cases hc : env.createResult with
        | none => simp [hi, hc] at hss
        | some w0 => exact ⟨not_lt.mp hi, w0, rfl, by cases env.surfaceResult <;> simp [hi]⟩
    obtain ⟨hi, w, hw, hwin⟩ := hacq
    refine ⟨(startup env).trace ++ (eventLoop (startup env).window
        (startup env).screenSurface env.events startState).trace, w, e, hi, hw, ?_, ?_, hty, ?_⟩
    · rw [main_trace, if_neg (by simp [hf]), if_pos hx, hwin, List.append_assoc]
    · rw [List.filter_append, hstart, hloop]; rfl
    · exact List.mem_append_right _ he
  · intro hfail
    have hss : (startup env).screenSurface = none := by
      unfold startup
      rcases hfail with hi | hc
      · simp [hi]
      · by_cases hi : env.initResult < 0
        · simp [hi]
        · simp [hi, hc]
    have hne : (eventLoop (startup env).window (startup env).screenSurface env.events
        startState).outcome ≠ LoopOutcome.exited := by
      rw [hss]
      exact eventLoop_null_not_exited _ _ startState rfl
    constructor
    · rw [main_trace]
      simp only [List.filter_append, hstart, List.nil_append]
      split_ifs
      · rfl
      · simp [hloop]
    · intro hret
      exact hne ((main_returned_iff env).mp hret).2

/-- Witness for C10: a run that returns after one close event, and a run on which
`SDL_Init` failed. -/
theorem release_once_at_the_end_witness :
    (main ⟨0, some 1, some ⟨0⟩, "", [[quitEvent]]⟩).outcome = Outcome.returned 0
    ∧ (∃ pre w e, (0 : Int) ≤ 0 ∧ (some 1 : Option Window) = some w
        ∧ (main ⟨0, some 1, some ⟨0⟩, "", [[quitEvent]]⟩).trace
            = pre ++ [Effect.SDL_DestroyWindow (some w), Effect.SDL_Quit]
        ∧ pre.filter isShutdown = []
        ∧ e.type = SDL_QUIT ∧ Effect.SDL_PollEvent (some e) ∈ pre)
    ∧ ((-1 : Int) < 0 ∨ (none : Option Window) = none)
    ∧ (main ⟨-1, none, none, "", [[quitEvent]]⟩).trace.filter isShutdown = [] :=
  ⟨by decide,
    (release_once_at_the_end ⟨0, some 1, some ⟨0⟩, "", [[quitEvent]]⟩).1 (by decide),
    Or.inl (by decide),
    ((release_once_at_the_end ⟨-1, none, none, "", [[quitEvent]]⟩).2
      (Or.inl (by decide))).1⟩

end SimpleGame
